import Mathlib

/-!
# Verification of `record_upload_manager.py` (auto-bilibili-recorder)

Shallow embedding of the session-lifecycle / upload / comment-post manager.
Python objects are modelled as Lean structures; the mutable session registry
(a dict of `session_id → Session` with aliasing) is modelled as a heap of
`Session` objects plus an insertion-ordered association list of ids to heap
indices; the worker loops are modelled as one-step / one-cycle transition
functions parameterised by the outcomes of the external calls (upload,
comment post, video generation).  Times are integers (seconds); Python's
`timedelta.seconds` normalisation is modelled explicitly.

`session.py`, `comment_task.py`, `task_save.py` and `upload_task.py` are not
part of the sources; the definitions taken from them are modelled from the
spec and carry a doc comment starting with `Modelled from the spec:`.
-/

set_option maxHeartbeats 1000000

/-- Python credential pair carried on an upload task
(`Verify(uploader.sessdata, uploader.bili_jct)`). -/
structure Verify where
  sessdata : String
  bili_jct : String
deriving DecidableEq, Repr

/-- Modelled from the spec: `upload_task.py` is not under `src/`.  An
`UploadTask` carries "session_id, resolved file paths (video, thumbnail,
subtitle/SC, HE overlay), title, description, tag set, destination channel,
a boolean flag distinguishing the danmaku-burned variant from the early
variant, credentials, and a `trial` counter starting at 0".  `video_path` is
an `Option` because the Python constructor is handed
`session.early_video_path`, which may be `None`. -/
structure UploadTask where
  session_id : String
  video_path : Option String
  thumbnail_path : String
  sc_path : String
  he_path : String
  title : String
  source : String
  description : String
  tag : List String
  channel_id : Nat
  danmaku : Bool
  verify : Verify
  trial : Nat := 0
deriving DecidableEq, Repr

/-- Modelled from the spec: `comment_task.py` is not under `src/`.  A
`CommentTask` is "derived from a completed UploadTask (session_id + the
text/content needed to comment)". -/
structure CommentTask where
  session_id : String
  content : String
deriving DecidableEq, Repr

/-- Modelled from the spec: `CommentTask.from_upload_task` derives the
comment task from an upload task (its session id and the text needed to
comment, taken here from the task's title). -/
def CommentTask.from_upload_task (t : UploadTask) : CommentTask :=
  { session_id := t.session_id, content := t.title }

/-- A YAML-like structured document value: the shape `yaml.dump`/`yaml.load`
round-trips through the save file. -/
inductive YamlValue where
  | str (v : String)
  | list (items : List YamlValue)
  | dict (entries : List (String × YamlValue))

/-- Python dict lookup on an insertion-ordered association list
(`d[k]`, returning `none` where Python raises `KeyError` / where the code
uses `in` first). -/
def dictGet? {α : Type} (l : List (String × α)) (k : String) : Option α :=
  (l.find? (fun p => p.1 == k)).map (fun p => p.2)

/-- Python dict assignment `d[k] = v` on an insertion-ordered association
list: an existing key keeps its position, a fresh key is appended. -/
def dictSet {α : Type} (l : List (String × α)) (k : String) (v : α) :
    List (String × α) :=
  if l.any (fun p => p.1 == k) then
    l.map (fun p => if p.1 == k then (k, v) else p)
  else
    l ++ [(k, v)]

/-- Modelled from the spec: `task_save.py` is not under `src/`.  The
persisted `SaveState` has two fields, `session_id_map` (session id →
published video id) and `active_comment_tasks` (ordered sequence of comment
task records). -/
structure TaskSave where
  session_id_map : List (String × String) := []
  active_comment_tasks : List CommentTask := []
deriving DecidableEq, Repr

/-- Modelled from the spec: serialisation of one comment task record inside
the persisted document. -/
def CommentTask.to_dict (t : CommentTask) : YamlValue :=
  .dict [("session_id", .str t.session_id), ("content", .str t.content)]

/-- Modelled from the spec: parsing one comment task record back from the
persisted document. -/
def CommentTask.from_dict : YamlValue → Option CommentTask
  | .dict [("session_id", .str s), ("content", .str c)] =>
      some { session_id := s, content := c }
  | _ => none

/-- Modelled from the spec: `TaskSave.to_dict` produces the structured
document with the two top-level fields. -/
def TaskSave.to_dict (s : TaskSave) : YamlValue :=
  .dict
    [("session_id_map",
        .dict (s.session_id_map.map (fun p => (p.1, YamlValue.str p.2)))),
     ("active_comment_tasks",
        .list (s.active_comment_tasks.map CommentTask.to_dict))]

/-- Fallible element-wise parsing of a list, failing when any element
fails. -/
def parseAll {α β : Type} (f : α → Option β) : List α → Option (List β)
  | [] => some []
  | x :: xs => do
    let y ← f x
    let ys ← parseAll f xs
    some (y :: ys)

/-- Modelled from the spec: `TaskSave.from_dict` parses the structured
document back into a `SaveState`; any malformed document is rejected. -/
def TaskSave.from_dict : YamlValue → Option TaskSave
  | .dict [("session_id_map", .dict m), ("active_comment_tasks", .list ts)] => do
      let idMap ← parseAll (fun p =>
        match p.2 with
        | .str v => some (p.1, v)
        | _ => none) m
      let tasks ← parseAll CommentTask.from_dict ts
      some { session_id_map := idMap, active_comment_tasks := tasks }
  | _ => none

/-- Observable side effects of the manager's steps and of the upload
workflow, in program order. -/
inductive Effect where
  | logRetry (title : String)
  | logTerminal (title : String)
  | logUnknownSession (roomId : Nat) (sessionId : String)
  | logNoRoomConfig (roomId : Nat)
  | logNoUploader (roomId : Nat)
  | logPostException
  | persist
  | cancelWorkflow
  | launchWorkflow (sessionId : String)
  | sleep (seconds : Nat)
  | genEarlyVideo
  | genDanmakuVideo
  | putUpload (t : UploadTask)
  | putComment (t : CommentTask)
deriving DecidableEq, Repr

/-- The shared mutable state touched by the two worker threads: the two
queues (lists, head = front of the FIFO), the in-memory `TaskSave`, and the
current contents of the save file (`none` before the first write). -/
structure WorkerState where
  video_upload_queue : List UploadTask
  comment_post_queue : List CommentTask
  save : TaskSave
  save_file : Option YamlValue

/-- `save_progress`: overwrite the save file with the serialised current
`TaskSave`. -/
def save_progress (st : WorkerState) : WorkerState :=
  { st with save_file := some st.save.to_dict }

/-- Outcome of one external `upload_task.upload(...)` call. -/
inductive UploadResult where
  | success (bv_id : String)
  | failure
deriving DecidableEq, Repr

/-- One iteration of the `video_uploader` loop (lines 57–71): pop the front
task; on success record `session_id → bv_id` in the save and persist
immediately under the lock; on failure requeue at the tail with `trial`
incremented when `trial < 5`, otherwise drop the task with a terminal log.
An empty queue corresponds to `Queue.get` blocking and is modelled as a
no-op. -/
def video_uploader_step (st : WorkerState) (res : UploadResult) :
    WorkerState × List Effect :=
  match st.video_upload_queue with
  | [] => (st, [])
  | upload_task :: rest =>
    match res with
    | .success bv_id =>
      let save' : TaskSave :=
        { st.save with
            session_id_map :=
              dictSet st.save.session_id_map upload_task.session_id bv_id }
      (save_progress { st with video_upload_queue := rest, save := save' },
       [.persist])
    | .failure =>
      if upload_task.trial < 5 then
        ({ st with video_upload_queue :=
             rest ++ [{ upload_task with trial := upload_task.trial + 1 }] },
         [.logRetry upload_task.title])
      else
        ({ st with video_upload_queue := rest },
         [.logTerminal upload_task.title])

theorem dictGet?_map_update {α : Type} (k : String) (v : α) :
    ∀ l : List (String × α), l.any (fun p => p.1 == k) = true →
      dictGet? (l.map fun p => if p.1 == k then (k, v) else p) k = some v := by
  intro l
  induction l with
  | nil => intro h; simp at h
  | cons p rest ih =>
    intro h
    rw [List.map_cons]
    by_cases hp : p.1 = k
    · have hrw : (if (p.1 == k) = true then (k, v) else p) = (k, v) := by
        simp [hp]
      rw [hrw]
      simp [dictGet?]
    · have hp' : (p.1 == k) = false := by simp [hp]
      have hrw : (if (p.1 == k) = true then (k, v) else p) = p := by simp [hp']
      rw [hrw]
      have hrest : rest.any (fun p => p.1 == k) = true := by
        simpa [List.any_cons, hp'] using h
      have hih := ih hrest
      simp only [dictGet?] at hih ⊢
      rw [List.find?_cons_of_neg _ (by simp [hp'])]
      exact hih

theorem dictGet?_append_fresh {α : Type} (k : String) (v : α) :
    ∀ l : List (String × α), l.any (fun p => p.1 == k) = false →
      dictGet? (l ++ [(k, v)]) k = some v := by
  intro l
  induction l with
  | nil => simp [dictGet?]
  | cons p rest ih =>
    intro h
    simp only [List.any_cons, Bool.or_eq_false_iff] at h
    simp only [dictGet?, List.cons_append]
    rw [List.find?_cons_of_neg _ (by simp [h.1])]
    have hih := ih h.2
    simpa [dictGet?] using hih

theorem dictGet?_dictSet {α : Type} (l : List (String × α)) (k : String) (v : α) :
    dictGet? (dictSet l k v) k = some v := by
  unfold dictSet
  by_cases h : l.any (fun p => p.1 == k)
  · rw [if_pos h]
    exact dictGet?_map_update k v l h
  · rw [if_neg h]
    refine dictGet?_append_fresh k v l ?_
    cases hb : l.any (fun p => p.1 == k) with
    | false => rfl
    | true => exact absurd hb h

/-- Python exceptions that the embedded code can raise. -/
inductive PyError where
  | typeError
deriving DecidableEq, Repr

/-- `CONTINUE_SESSION_MINUTES` (line 20). -/
def CONTINUE_SESSION_MINUTES : Int := 5

/-- `WAIT_SESSION_MINUTES` (line 21). -/
def WAIT_SESSION_MINUTES : Nat := 6

/-- Python `timedelta.seconds` of a delta of `d` whole seconds: timedeltas
are normalised so that `seconds` always lies in `[0, 86400)`, negative
deltas borrowing from `days`; hence `timedelta(seconds=d).seconds` is the
floor modulus `d mod 86400`. -/
def timedeltaSeconds (d : Int) : Int := Int.emod d 86400

/-- The continuation test of line 178–179,
`(session.end_time - datetime.datetime.now()).seconds / 60 <
CONTINUE_SESSION_MINUTES`, at whole-second granularity: `/` is Python float
division, and for an integer `s`, `s / 60 < 5` iff `s < 300`. -/
def continueCheck (end_time now : Int) : Bool :=
  timedeltaSeconds (end_time - now) < 60 * CONTINUE_SESSION_MINUTES

/-- A lifecycle update event as received by `handle_update`
(`update_json["EventType"]`, `update_json["EventData"]`). -/
structure UpdateEvent where
  eventType : String
  roomId : Nat
  sessionId : String
  roomName : String := ""
  roomTitle : String := ""
  filePath : String := ""
deriving DecidableEq, Repr

/-- Modelled from the spec: `session.py` is not under `src/`.  A `Video` is
an immutable record of one recorded file segment appended on `FileClosed`. -/
structure Video where
  file_path : String
deriving DecidableEq, Repr

/-- Handle to an in-flight upload workflow
(`asyncio.run_coroutine_threadsafe` future); `cancel()` flips the flag. -/
structure WorkflowHandle where
  cancelled : Bool
deriving DecidableEq, Repr

/-- Modelled from the spec: `session.py` is not under `src/`.  A `Session`
holds identity, room metadata, timing (`end_time` unset until the session
ends), the append-only video list, the optional early-cut path, the
optional handle to its in-flight upload workflow, and the resolved
auxiliary output paths returned by `output_path()`. -/
structure Session where
  session_id : String
  room_id : Nat
  room_name : String
  room_title : String
  start_time : Int
  end_time : Option Int
  videos : List Video
  early_video_path : Option String
  upload_task : Option WorkflowHandle
  thumbnail_path : String
  sc_file : String
  he_file : String
deriving DecidableEq, Repr

/-- Modelled from the spec: `Session(update_json)` creates a fresh session
from a `SessionStarted` event — ids and room metadata from the event,
`end_time` unset until ended, no videos, no workflow handle. -/
def Session.fromEvent (ev : UpdateEvent) (now : Int) : Session :=
  { session_id := ev.sessionId
    room_id := ev.roomId
    room_name := ev.roomName
    room_title := ev.roomTitle
    start_time := now
    end_time := none
    videos := []
    early_video_path := none
    upload_task := none
    thumbnail_path := ""
    sc_file := ""
    he_file := "" }

/-- Modelled from the spec: `Session.process_update` applies generic field
updates from a non-start event and records `end_time` when the event is
`SessionEnded`. -/
def Session.process_update (s : Session) (ev : UpdateEvent) (now : Int) :
    Session :=
  let s' := { s with room_name := ev.roomName, room_title := ev.roomTitle }
  if ev.eventType == "SessionEnded" then { s' with end_time := some now }
  else s'

/-- Modelled from the spec: `Video(update_json)` records the closed file
reported by a `FileClosed` event. -/
def Video.fromEvent (ev : UpdateEvent) : Video :=
  { file_path := ev.filePath }

/-- Modelled from the spec: `Session.add_video` appends a segment to the
session's ordered video list. -/
def Session.add_video (s : Session) (v : Video) : Session :=
  { s with videos := s.videos ++ [v] }

/-- The session registry.  Python's `self.sessions` dict maps session ids
to shared mutable `Session` objects; aliasing is made explicit by a heap of
session objects plus an insertion-ordered association list of ids to heap
indices (two ids aliased to one object hold the same index). -/
structure Manager where
  heap : List Session
  sessions : List (String × Nat)
deriving DecidableEq, Repr

/-- The registered session objects in `self.sessions.values()` order,
paired with their heap index (an aliased object appears once per key, as in
Python). -/
def Manager.sessionValues (m : Manager) : List (Nat × Session) :=
  m.sessions.filterMap (fun p => (m.heap[p.2]?).map (fun s => (p.2, s)))

/-- The `for session in self.sessions.values()` scan of lines 177–183:
return the heap index of the first registered session whose `room_id`
matches and whose continuation test passes.  The room check is evaluated
first (Python's `and` short-circuits); on a matching room whose `end_time`
is unset the subtraction `None - datetime.datetime.now()` raises a
`TypeError`. -/
def findContinuation (room_id : Nat) (now : Int) :
    List (Nat × Session) → Except PyError (Option Nat)
  | [] => .ok none
  | (idx, s) :: rest =>
    if s.room_id = room_id then
      match s.end_time with
      | none => .error .typeError
      | some e =>
        if continueCheck e now then .ok (some idx)
        else findContinuation room_id now rest
    else findContinuation room_id now rest

/-- `handle_update` (lines 173–196): the event dispatcher.  `now` is the
value of `datetime.datetime.now()` during the continuation scan and the
time recorded by `process_update` on `SessionEnded`.  The result pairs the
new registry with the effects emitted, or carries the Python exception the
call raises. -/
def handle_update (m : Manager) (ev : UpdateEvent) (now : Int) :
    Except PyError (Manager × List Effect) :=
  if ev.eventType == "SessionStarted" then
    match findContinuation ev.roomId now m.sessionValues with
    | .error e => .error e
    | .ok (some idx) =>
      let m' : Manager := { m with sessions := dictSet m.sessions ev.sessionId idx }
      match m.heap[idx]? with
      | some s =>
        match s.upload_task with
        | some h =>
          .ok ({ m' with heap :=
                   m'.heap.set idx { s with upload_task := some { h with cancelled := true } } },
               [.cancelWorkflow])
        | none => .ok (m', [])
      | none => .ok (m', [])
    | .ok none =>
      .ok ({ m with
               heap := m.heap ++ [Session.fromEvent ev now]
               sessions := dictSet m.sessions ev.sessionId m.heap.length }, [])
  else
    match dictGet? m.sessions ev.sessionId with
    | none => .ok (m, [.logUnknownSession ev.roomId ev.sessionId])
    | some idx =>
      match m.heap[idx]? with
      | none => .ok (m, [])
      | some s =>
        let s1 := s.process_update ev now
        if ev.eventType == "FileClosed" then
          .ok ({ m with heap := m.heap.set idx (s1.add_video (Video.fromEvent ev)) }, [])
        else if ev.eventType == "SessionEnded" then
          .ok ({ m with heap :=
                   m.heap.set idx { s1 with upload_task := some { cancelled := false } } },
               [.launchWorkflow s1.session_id])
        else
          .ok ({ m with heap := m.heap.set idx s1 }, [])

/-- Outcome of one external `task.post_comment(...)` attempt. -/
inductive PostOutcome where
  | success
  | failure
  | raise
deriving DecidableEq, Repr

/-- Phase (b) of a `comment_poster` cycle (lines 82–86): attempt every
active task in order, collecting the indices whose post reports success;
a raised exception aborts the loop — and with it the whole `try` block —
discarding the indices collected so far, which `none` records.  `outcome`
gives the result of the attempt at each position of the active list. -/
def collectSuccess (outcome : Nat → CommentTask → PostOutcome) :
    Nat → List CommentTask → Option (List Nat)
  | _, [] => some []
  | i, t :: ts =>
    match outcome i t with
    | .raise => none
    | .success => (collectSuccess outcome (i + 1) ts).map (fun l => i :: l)
    | .failure => collectSuccess outcome (i + 1) ts

/-- One cycle of the `comment_poster` loop (lines 75–99).  Phase (a) drains
the comment queue into `active_comment_tasks`, persisting after each
drained task; phase (b) attempts every active task; phase (c) rebuilds the
active list without the collected indices and persists.  The code's guard
`if task_to_remove != 0:` compares a list against the integer `0` and is
therefore always true, so the rebuild-and-persist runs whenever the active
list is non-empty and no attempt raised.  A raised exception is caught at
the cycle level (lines 95–97): removal and its persist are skipped and the
cycle just logs; either way the cycle ends with the 60-second sleep. -/
def comment_poster_cycle (st : WorkerState)
    (outcome : Nat → CommentTask → PostOutcome) : WorkerState × List Effect :=
  let drained : TaskSave :=
    { st.save with
        active_comment_tasks :=
          st.save.active_comment_tasks ++ st.comment_post_queue }
  let st1 : WorkerState :=
    { st with
        comment_post_queue := []
        save := drained
        save_file :=
          if st.comment_post_queue.isEmpty then st.save_file
          else some drained.to_dict }
  let drainEffects : List Effect := st.comment_post_queue.map (fun _ => .persist)
  let active := st1.save.active_comment_tasks
  if active.length ≠ 0 then
    match collectSuccess outcome 0 active with
    | none => (st1, drainEffects ++ [.logPostException, .sleep 60])
    | some task_to_remove =>
      let save2 : TaskSave :=
        { st1.save with
            active_comment_tasks :=
              (active.enum.filter (fun p => decide (p.1 ∉ task_to_remove))).map
                Prod.snd }
      (save_progress { st1 with save := save2 },
       drainEffects ++ [.persist, .sleep 60])
  else
    (st1, drainEffects ++ [.sleep 60])

theorem mem_enumFrom_le {α : Type} :
    ∀ (l : List α) (n : Nat) (p : Nat × α), p ∈ List.enumFrom n l → n ≤ p.1 := by
  intro l
  induction l with
  | nil => intro n p h; simp [List.enumFrom] at h
  | cons a as ih =>
    intro n p h
    rw [List.enumFrom] at h
    rcases List.mem_cons.mp h with h | h
    · subst h; exact Nat.le_refl n
    · exact Nat.le_of_succ_le (ih (n + 1) p h)

theorem collectSuccess_ge (f : Nat → CommentTask → PostOutcome) :
    ∀ (l : List CommentTask) (i : Nat) (idxs : List Nat),
      collectSuccess f i l = some idxs → ∀ j ∈ idxs, i ≤ j := by
  intro l
  induction l with
  | nil =>
    intro i idxs h j hj
    simp only [collectSuccess, Option.some.injEq] at h
    subst h
    simp at hj
  | cons t ts ih =>
    intro i idxs h j hj
    rw [collectSuccess] at h
    cases hf : f i t with
    | raise => rw [hf] at h; exact absurd h (by simp)
    | success =>
      rw [hf] at h
      rcases Option.map_eq_some'.mp h with ⟨rest, hrest, hidxs⟩
      subst hidxs
      rcases List.mem_cons.mp hj with hj | hj
      · subst hj; exact Nat.le_refl _
      · exact Nat.le_of_succ_le (ih (i + 1) rest hrest j hj)
    | failure =>
      rw [hf] at h
      exact Nat.le_of_succ_le (ih (i + 1) idxs h j hj)

theorem filter_collectSuccess (f : Nat → CommentTask → PostOutcome) :
    ∀ (l : List CommentTask) (i : Nat) (idxs : List Nat),
      collectSuccess f i l = some idxs →
      (List.enumFrom i l).filter (fun p => decide (p.1 ∉ idxs))
        = (List.enumFrom i l).filter
            (fun p => decide (f p.1 p.2 ≠ PostOutcome.success)) := by
  intro l
  induction l with
  | nil => intro i idxs _; simp [List.enumFrom]
  | cons t ts ih =>
    intro i idxs h
    rw [collectSuccess] at h
    rw [List.enumFrom]
    cases hf : f i t with
    | raise => rw [hf] at h; exact absurd h (by simp)
    | success =>
      rw [hf] at h
      rcases Option.map_eq_some'.mp h with ⟨rest, hrest, hidxs⟩
      subst hidxs
      rw [List.filter_cons, List.filter_cons]
      have h1 : (decide ((i, t).1 ∉ i :: rest)) = false := by simp
      have h2 : (decide (f (i, t).1 (i, t).2 ≠ PostOutcome.success)) = false := by
        simp [hf]
      rw [h1, h2]
      simp only [Bool.false_eq_true, if_false]
      have hcongr :
          (List.enumFrom (i + 1) ts).filter (fun p => decide (p.1 ∉ i :: rest))
            = (List.enumFrom (i + 1) ts).filter (fun p => decide (p.1 ∉ rest)) := by
        apply List.filter_congr
        intro p hp
        have hge : i + 1 ≤ p.1 := mem_enumFrom_le ts (i + 1) p hp
        have hne : p.1 ≠ i := by omega
        simp [List.mem_cons, hne]
      rw [hcongr]
      exact ih (i + 1) rest hrest
    | failure =>
      rw [hf] at h
      rw [List.filter_cons, List.filter_cons]
      have hnotmem : (i : Nat) ∉ idxs := by
        intro hmem
        have := collectSuccess_ge f ts (i + 1) idxs h i hmem
        omega
      have h1 : (decide ((i, t).1 ∉ idxs)) = true := by simpa using hnotmem
      have h2 : (decide (f (i, t).1 (i, t).2 ≠ PostOutcome.success)) = true := by
        simp [hf]
      rw [h1, h2]
      simp only [if_true]
      rw [ih (i + 1) idxs h]

/-- Per-room configuration as consumed by `upload_video`
(`recorder_config.py` is an external collaborator per the spec; only the
fields the workflow reads are modelled). -/
structure RoomConfig where
  id : Nat
  uploader : Option String
  title : String
  description : String
  tags : List String
  channel_id : Nat
  source : String
deriving DecidableEq, Repr

/-- An uploader account from `config.accounts`. -/
structure UploaderAccount where
  name : String
  sessdata : String
  bili_jct : String
deriving DecidableEq, Repr

/-- The room-config resolution loop of lines 102–105: the loop iterates the
whole list without breaking, so the last room with a matching id wins. -/
def findRoomConfig (rooms : List RoomConfig) (room_id : Nat) :
    Option RoomConfig :=
  rooms.foldl (fun acc room => if room.id = room_id then some room else acc)
    none

/-- `upload_video` (lines 101–171) as the ordered list of effects one run
produces, parameterised by the results of the external collaborators:
`substitute` stands for the stdlib `Template(...).substitute(substitute_dict)`
resolution of step 3 (applied to the configured title and description
templates), `earlyResult` is the value `session.early_video_path` holds
after `await session.gen_early_video()` (`none` when no early cut is
produced), and `danmakuPath` is the file path of the danmaku-burned video
produced by `await session.gen_danmaku_video()` (modelled from the spec:
`generate_danmaku_cut(session) -> path`).  Note that the code never reads
`danmakuPath`: both `UploadTask`s take their `video_path` from
`session.early_video_path`.  The result is `none` exactly when
`self.config.accounts[room_config.uploader]` raises a `KeyError`. -/
def upload_video (rooms : List RoomConfig)
    (accounts : List (String × UploaderAccount))
    (substitute : String → String) (session : Session)
    (earlyResult : Option String) (danmakuPath : String) :
    Option (List Effect) :=
  match findRoomConfig rooms session.room_id with
  | none => some [.logNoRoomConfig session.room_id]
  | some room_config =>
    match room_config.uploader with
    | none => some [.logNoUploader room_config.id]
    | some uploaderName =>
      match dictGet? accounts uploaderName with
      | none => none
      | some uploader =>
        let title := substitute room_config.title
        let description := substitute room_config.description
        let early_video_path := earlyResult
        let early_upload_task : Option UploadTask :=
          match early_video_path with
          | none => none
          | some _ =>
            some
              { session_id := session.session_id
                video_path := early_video_path
                thumbnail_path := session.thumbnail_path
                sc_path := session.sc_file
                he_path := session.he_file
                title := title
                source := room_config.source
                description := description
                tag := room_config.tags
                channel_id := room_config.channel_id
                danmaku := false
                verify := ⟨uploader.sessdata, uploader.bili_jct⟩ }
        let danmaku_upload_task : UploadTask :=
          { session_id := session.session_id
            video_path := early_video_path
            thumbnail_path := session.thumbnail_path
            sc_path := session.sc_file
            he_path := session.he_file
            title := title
            source := room_config.source
            description := description
            tag := room_config.tags
            channel_id := room_config.channel_id
            danmaku := true
            verify := ⟨uploader.sessdata, uploader.bili_jct⟩ }
        some
          ([Effect.genEarlyVideo]
            ++ (match early_upload_task with
                | some t => [Effect.putUpload t]
                | none => [])
            ++ [Effect.sleep (WAIT_SESSION_MINUTES * 60)]
            ++ (match early_upload_task with
                | some t => [Effect.putComment (CommentTask.from_upload_task t)]
                | none => [])
            ++ [Effect.genDanmakuVideo, Effect.putUpload danmaku_upload_task]
            ++ (match early_upload_task with
                | none =>
                  [Effect.putComment
                    (CommentTask.from_upload_task danmaku_upload_task)]
                | some _ => []))

/-- Recognises a comment-enqueue effect. -/
def isPutComment : Effect → Bool
  | .putComment _ => true
  | _ => false

theorem parseAll_str_roundtrip :
    ∀ m : List (String × String),
      parseAll (fun p =>
          match p.2 with
          | YamlValue.str v => some (p.1, v)
          | _ => none)
        (m.map (fun p => (p.1, YamlValue.str p.2)))
        = some m := by
  intro m
  induction m with
  | nil => rfl
  | cons p ps ih => simp [parseAll, ih]

theorem parseAll_commentTask_roundtrip :
    ∀ ts : List CommentTask,
      parseAll CommentTask.from_dict (ts.map CommentTask.to_dict) = some ts := by
  intro ts
  induction ts with
  | nil => rfl
  | cons t ts ih =>
    simp [parseAll, ih, CommentTask.to_dict, CommentTask.from_dict]

/-- C2: on an upload failure the front task is re-enqueued at the tail of
the upload queue iff its `trial` counter is strictly below 5 before the
failure is handled, and then with `trial` incremented by exactly one; at
`trial = 5` the task is dropped and a terminal failure is logged. -/
theorem upload_failure_retry_policy (t : UploadTask) (rest : List UploadTask)
    (cq : List CommentTask) (save : TaskSave) (file : Option YamlValue) :
    video_uploader_step ⟨t :: rest, cq, save, file⟩ .failure
      = if t.trial < 5 then
          (⟨rest ++ [{ t with trial := t.trial + 1 }], cq, save, file⟩,
           [.logRetry t.title])
        else (⟨rest, cq, save, file⟩, [.logTerminal t.title]) := by
  by_cases h : t.trial < 5 <;> simp [video_uploader_step, h]

/-- C3: on a successful upload returning `bv_id`, the worker sets
`session_id_map[task.session_id]` to `bv_id` and writes the full serialised
save state to the save file within the same success handling, before any
further task is processed. -/
theorem upload_success_records_and_persists (bv_id : String) (t : UploadTask)
    (rest : List UploadTask) (cq : List CommentTask) (save : TaskSave)
    (file : Option YamlValue) :
    video_uploader_step ⟨t :: rest, cq, save, file⟩ (.success bv_id)
      = ((⟨rest, cq,
            { save with
                session_id_map := dictSet save.session_id_map t.session_id bv_id },
            some (TaskSave.to_dict
              { save with
                  session_id_map :=
                    dictSet save.session_id_map t.session_id bv_id })⟩ :
            WorkerState),
         [.persist])
    ∧ dictGet? (dictSet save.session_id_map t.session_id bv_id) t.session_id
        = some bv_id :=
  ⟨rfl, dictGet?_dictSet _ _ _⟩

/-- C9: persisting any `SaveState` and parsing it back yields the same
state — `from_dict (to_dict s) = some s` — including for empty
collections. -/
theorem taskSave_roundtrip (s : TaskSave) :
    TaskSave.from_dict (TaskSave.to_dict s) = some s := by
  simp [TaskSave.to_dict, TaskSave.from_dict, parseAll_str_roundtrip,
    parseAll_commentTask_roundtrip]

/-- C7: a lifecycle event that is not `SessionStarted` and whose session id
is not registered is logged and dropped: the registry is returned entirely
unchanged (no session created or mutated, no video appended, no workflow
launched) with only the log effect. -/
theorem unknown_session_event_dropped (m : Manager) (ev : UpdateEvent)
    (now : Int) (h1 : ev.eventType ≠ "SessionStarted")
    (h2 : dictGet? m.sessions ev.sessionId = none) :
    handle_update m ev now
      = .ok (m, [.logUnknownSession ev.roomId ev.sessionId]) := by
  unfold handle_update
  rw [if_neg (by simpa using h1), h2]

theorem unknown_session_event_dropped_witness :
    ({ eventType := "FileClosed", roomId := 7, sessionId := "s1" } :
        UpdateEvent).eventType ≠ "SessionStarted"
    ∧ dictGet? (Manager.mk [] []).sessions "s1" = none
    ∧ handle_update (Manager.mk [] [])
        { eventType := "FileClosed", roomId := 7, sessionId := "s1" } 0
        = .ok (Manager.mk [] [], [.logUnknownSession 7 "s1"]) :=
  ⟨by decide, rfl,
    unknown_session_event_dropped (Manager.mk [] [])
      { eventType := "FileClosed", roomId := 7, sessionId := "s1" } 0
      (by decide) rfl⟩

/-- C8 (failing evaluation): with a still-recording session for the same
room in the registry (`end_time` unset), the `SessionStarted` continuation
scan evaluates `session.end_time - datetime.datetime.now()` on that session
and raises a `TypeError` instead of skipping it, so the scan does not
complete. -/
theorem sessionStarted_unset_end_time_raises :
    handle_update
      (Manager.mk
        [{ session_id := "s0", room_id := 7, room_name := "n",
           room_title := "t", start_time := 0, end_time := none,
           videos := [], early_video_path := none, upload_task := none,
           thumbnail_path := "", sc_file := "", he_file := "" }]
        [("s0", 0)])
      { eventType := "SessionStarted", roomId := 7, sessionId := "s1" } 1000
      = .error .typeError := rfl

/-- Room 7's previous session, ended at `t = 880` with an in-flight upload
workflow handle. -/
def endedRecentSession : Session :=
  { session_id := "s0", room_id := 7, room_name := "n", room_title := "t",
    start_time := 0, end_time := some 880, videos := [],
    early_video_path := none, upload_task := some ⟨false⟩,
    thumbnail_path := "", sc_file := "", he_file := "" }

/-- C1 (failing evaluation): room 7's session ended at `t = 880` and a new
`SessionStarted` for room 7 arrives at `now = 1000`, i.e. `now − end_time`
is 120 s, well inside the 5-minute continuation window.  The code computes
`(end_time − now).seconds`, which normalises the negative timedelta
−120 s to 86280 s, so the merge branch is not taken: a second `Session`
object is created and registered under the new id, and the old session's
in-flight workflow handle is left uncancelled. -/
theorem sessionStarted_recent_end_not_merged :
    handle_update (Manager.mk [endedRecentSession] [("s0", 0)])
      { eventType := "SessionStarted", roomId := 7, sessionId := "s1" } 1000
      = .ok (Manager.mk
          [endedRecentSession,
           Session.fromEvent
             { eventType := "SessionStarted", roomId := 7, sessionId := "s1" }
             1000]
          [("s0", 0), ("s1", 1)], []) := rfl

/-- A comment task whose post attempt keeps failing. -/
def pendingCommentTask : CommentTask := { session_id := "sX", content := "c" }

/-- C10 (failing evaluation): a cycle in which the single active task's
post attempt fails leaves `active_comment_tasks` unchanged, yet phase (c)
still rewrites the save file: the guard `if task_to_remove != 0:` compares
the (empty) index list against the integer 0 and is always true, so the
removal phase persists even though nothing changed — here the save file
goes from never-written (`none`) to the serialised unchanged state, with a
`persist` effect emitted by phase (c) (the drain phase had nothing to
persist). -/
theorem comment_cycle_no_success_still_persists :
    comment_poster_cycle
      (WorkerState.mk [] [] (TaskSave.mk [] [pendingCommentTask]) none)
      (fun _ _ => .failure)
      = (WorkerState.mk [] [] (TaskSave.mk [] [pendingCommentTask])
          (some (TaskSave.to_dict (TaskSave.mk [] [pendingCommentTask]))),
         [.persist, .sleep 60]) := rfl

/-- First active comment task of the C4 counterexample. -/
def commentTaskA : CommentTask := { session_id := "sA", content := "a" }

/-- Second active comment task of the C4 counterexample. -/
def commentTaskB : CommentTask := { session_id := "sB", content := "b" }

/-- C4 (counterexample): task A's post attempt reports success in a cycle
in which task B's attempt raises; the claim says A is removed at the end of
that cycle even so, but the exception aborts the shared `try` block before
the removal phase, so A is still in `active_comment_tasks` afterwards. -/
theorem comment_cycle_success_then_raise_keeps_task :
    (comment_poster_cycle
        (WorkerState.mk [] []
          (TaskSave.mk [] [commentTaskA, commentTaskB]) none)
        (fun i _ => if i = 0 then .success else .raise)).1.save.active_comment_tasks
      = [commentTaskA, commentTaskB] := rfl

/-- C4 (amended): during a comment-post cycle, a task is removed from
`active_comment_tasks` exactly when its own attempt reported success AND no
attempt in that cycle raised an exception.  When some attempt raises, the
exception — though non-fatal to the worker, which still sleeps and runs the
next cycle — aborts the `try` block before the removal phase, so every
task (successfully posted or not) stays active; when no attempt raises,
exactly the tasks whose attempts reported success are removed.  `outcome`
is indexed by the position in the post-drain active list; `collectSuccess
… = none` means some attempt raised. -/
theorem comment_cycle_removal (st : WorkerState)
    (outcome : Nat → CommentTask → PostOutcome) :
    (collectSuccess outcome 0
        (st.save.active_comment_tasks ++ st.comment_post_queue) = none →
      (comment_poster_cycle st outcome).1.save.active_comment_tasks
        = st.save.active_comment_tasks ++ st.comment_post_queue)
    ∧ (∀ idxs,
        collectSuccess outcome 0
            (st.save.active_comment_tasks ++ st.comment_post_queue)
          = some idxs →
        (comment_poster_cycle st outcome).1.save.active_comment_tasks
          = ((List.enumFrom 0
                (st.save.active_comment_tasks ++ st.comment_post_queue)).filter
              (fun p => decide (outcome p.1 p.2 ≠ PostOutcome.success))).map
              Prod.snd) := by
  constructor
  · intro h
    have hA : (st.save.active_comment_tasks ++ st.comment_post_queue).length ≠ 0 := by
      intro hlen
      rw [List.length_eq_zero] at hlen
      rw [hlen] at h
      simp [collectSuccess] at h
    simp only [comment_poster_cycle]
    rw [if_pos hA, h]
  · intro idxs h
    by_cases hA : (st.save.active_comment_tasks ++ st.comment_post_queue).length ≠ 0
    · simp only [comment_poster_cycle]
      rw [if_pos hA, h]
      have hfilter := filter_collectSuccess outcome
        (st.save.active_comment_tasks ++ st.comment_post_queue) 0 idxs h
      have henum :
          (st.save.active_comment_tasks ++ st.comment_post_queue).enum
            = List.enumFrom 0
                (st.save.active_comment_tasks ++ st.comment_post_queue) := rfl
      simp only [henum, hfilter]
      rfl
    · rw [not_ne_iff, List.length_eq_zero] at hA
      simp only [comment_poster_cycle]
      rw [hA]
      simp [List.enumFrom]

theorem comment_cycle_removal_witness :
    (comment_poster_cycle
        (WorkerState.mk [] [] (TaskSave.mk [] [commentTaskA]) none)
        (fun _ _ => PostOutcome.success)).1.save.active_comment_tasks
      = ((List.enumFrom 0
            ((WorkerState.mk [] [] (TaskSave.mk [] [commentTaskA])
                none).save.active_comment_tasks
              ++ (WorkerState.mk [] [] (TaskSave.mk [] [commentTaskA])
                    none).comment_post_queue)).filter
          (fun p =>
            decide ((fun _ _ => PostOutcome.success) p.1 p.2
              ≠ PostOutcome.success))).map Prod.snd :=
  (comment_cycle_removal
      (WorkerState.mk [] [] (TaskSave.mk [] [commentTaskA]) none)
      (fun _ _ => PostOutcome.success)).2 [0] rfl

/-- Example room configuration with an uploader configured. -/
def demoRoom : RoomConfig :=
  { id := 7, uploader := some "acct", title := "T", description := "D",
    tags := ["tag"], channel_id := 17, source := "src" }

/-- Example uploader account registered under the key `"acct"`. -/
def demoAccount : UploaderAccount :=
  { name := "up", sessdata := "sd", bili_jct := "jct" }

/-- Example session for room 7 used to run the upload workflow. -/
def demoSession : Session :=
  { session_id := "s0", room_id := 7, room_name := "n", room_title := "t",
    start_time := 0, end_time := some 880, videos := [Video.mk "v.flv"],
    early_video_path := some "early.flv", upload_task := none,
    thumbnail_path := "th", sc_file := "sc", he_file := "he" }

/-- The early upload task the workflow builds for `demoSession`. -/
def demoEarlyTask : UploadTask :=
  { session_id := "s0", video_path := some "early.flv",
    thumbnail_path := "th", sc_path := "sc", he_path := "he", title := "T",
    source := "src", description := "D", tag := ["tag"], channel_id := 17,
    danmaku := false, verify := ⟨"sd", "jct"⟩ }

/-- The danmaku upload task the workflow builds for `demoSession`: it
differs from the early task only in the `danmaku` flag — its video path is
still the early cut's. -/
def demoDanmakuTask : UploadTask := { demoEarlyTask with danmaku := true }

/-- C5 (failing evaluation): after awaiting the danmaku generation the
workflow does enqueue a danmaku (`danmaku = true`) upload task
unconditionally, but its `video_path` is `session.early_video_path` — here
`"early.flv"`, even though the danmaku-burned video was generated at
`"danmaku.flv"` — and when no early cut exists the danmaku task is
enqueued with `video_path = none`. -/
theorem danmaku_task_carries_early_path :
    upload_video [demoRoom] [("acct", demoAccount)] id demoSession
        (some "early.flv") "danmaku.flv"
      = some [.genEarlyVideo, .putUpload demoEarlyTask, .sleep 360,
              .putComment ⟨"s0", "T"⟩, .genDanmakuVideo,
              .putUpload demoDanmakuTask]
    ∧ demoDanmakuTask.video_path = some "early.flv"
    ∧ upload_video [demoRoom] [("acct", demoAccount)] id demoSession
        none "danmaku.flv"
      = some [.genEarlyVideo, .sleep 360, .genDanmakuVideo,
              .putUpload { demoDanmakuTask with video_path := none },
              .putComment ⟨"s0", "T"⟩] :=
  ⟨rfl, rfl, rfl⟩

/-- C6: when `gen_early_video` produces no early cut, no early
(`danmaku = false`) upload task is ever enqueued and exactly one comment
task is enqueued, and only after the danmaku upload task has been built and
enqueued; conversely, when an early cut exists, the single comment task
enqueued is the early task's, placed before the danmaku generation step —
the danmaku task's comment is not enqueued. -/
theorem early_absent_comment_after_danmaku (rooms : List RoomConfig)
    (accounts : List (String × UploaderAccount))
    (substitute : String → String) (session : Session) (danmakuPath : String)
    (rc : RoomConfig) (up : String) (acc : UploaderAccount)
    (h1 : findRoomConfig rooms session.room_id = some rc)
    (h2 : rc.uploader = some up)
    (h3 : dictGet? accounts up = some acc) :
    (∀ effs,
        upload_video rooms accounts substitute session none danmakuPath
          = some effs →
        (∀ t, Effect.putUpload t ∈ effs → t.danmaku = true)
        ∧ effs.countP isPutComment = 1
        ∧ ∃ dt, dt.danmaku = true
            ∧ effs = [.genEarlyVideo, .sleep (WAIT_SESSION_MINUTES * 60),
                      .genDanmakuVideo, .putUpload dt,
                      .putComment (CommentTask.from_upload_task dt)])
    ∧ (∀ p effs,
        upload_video rooms accounts substitute session (some p) danmakuPath
          = some effs →
        effs.countP isPutComment = 1
        ∧ ∃ et dt, et.danmaku = false ∧ dt.danmaku = true
            ∧ effs = [.genEarlyVideo, .putUpload et,
                      .sleep (WAIT_SESSION_MINUTES * 60),
                      .putComment (CommentTask.from_upload_task et),
                      .genDanmakuVideo, .putUpload dt]) := by
  simp only [upload_video, h1, h2, h3]
  constructor
  · intro effs heq
    have heffs := (Option.some.inj heq).symm
    subst heffs
    refine ⟨?_, rfl, ?_⟩
    · intro t ht
      simp only [List.cons_append, List.nil_append, List.mem_cons,
        List.not_mem_nil, or_false] at ht
      rcases ht with ht | ht | ht | ht | ht <;> cases ht <;> rfl
    · exact ⟨_, rfl, rfl⟩
  · intro p effs heq
    have heffs := (Option.some.inj heq).symm
    subst heffs
    exact ⟨rfl, _, _, rfl, rfl, rfl⟩

theorem early_absent_comment_after_danmaku_witness :
    (∀ effs,
        upload_video [demoRoom] [("acct", demoAccount)] id demoSession none
            "danmaku.flv"
          = some effs →
        (∀ t, Effect.putUpload t ∈ effs → t.danmaku = true)
        ∧ effs.countP isPutComment = 1
        ∧ ∃ dt, dt.danmaku = true
            ∧ effs = [.genEarlyVideo, .sleep (WAIT_SESSION_MINUTES * 60),
                      .genDanmakuVideo, .putUpload dt,
                      .putComment (CommentTask.from_upload_task dt)])
    ∧ (∀ p effs,
        upload_video [demoRoom] [("acct", demoAccount)] id demoSession
            (some p) "danmaku.flv"
          = some effs →
        effs.countP isPutComment = 1
        ∧ ∃ et dt, et.danmaku = false ∧ dt.danmaku = true
            ∧ effs = [.genEarlyVideo, .putUpload et,
                      .sleep (WAIT_SESSION_MINUTES * 60),
                      .putComment (CommentTask.from_upload_task et),
                      .genDanmakuVideo, .putUpload dt]) :=
  early_absent_comment_after_danmaku [demoRoom] [("acct", demoAccount)] id
    demoSession "danmaku.flv" demoRoom "acct" demoAccount rfl rfl rfl
